import Mathlib

/-!
Verification of the RouPremium checkout transaction engine
(`src/RouPremium-backend/src/routes/simulacao.js`, POST /simulacao/sair)
against its specification, over a shallow embedding of the route handler
and of the database schema
(`prisma/migrations/20250921171157_init/migration.sql`).

The database state is a record of the four tables; the prisma transaction
callback is embedded as a pure function from the state to either an error
(the whole transaction rolls back, so the state is unchanged) or the
created purchase together with the updated state.  Monetary values are
Prisma Decimal values; every price stored by the schema is DECIMAL(10,2),
so they are embedded exactly as integer counts of cents.
-/

/-- Money: the exact decimal type used for prices and totals
(Prisma.Decimal restricted to the two-fractional-digit values the schema
column DECIMAL(10,2) stores), embedded as an integer count of cents. -/
structure Money where
  cents : Int
deriving Repr, DecidableEq

/-- Decimal addition, `Decimal.plus` in the route. -/
def Money.plus (a b : Money) : Money :=
  ⟨a.cents + b.cents⟩

/-- Decimal multiplication by an integer quantity, `Decimal.times` in the route. -/
def Money.times (a : Money) (n : Nat) : Money :=
  ⟨a.cents * n⟩

/-- The exact rational value a Money denotes (cents over one hundred). -/
def Money.toRat (a : Money) : ℚ :=
  (a.cents : ℚ) / 100

/-- Row of the clientes table. -/
structure Cliente where
  id : Int
  nome : String
  metodoPagamento : String
deriving Repr, DecidableEq

/-- Row of the produtos table. -/
structure Produto where
  id : Int
  nome : String
  preco : Money
deriving Repr, DecidableEq

/-- Row of the carrinhos table (one cart line). -/
structure CarrinhoItem where
  clienteId : Int
  produtoId : Int
  quantidade : Nat
deriving Repr, DecidableEq

/-- One element of the itens_comprados JSON snapshot stored in a compra:
the object literal built in the route from the joined cart line. -/
structure ItemComprado where
  id : Int
  nome : String
  preco : Money
  quantidade : Nat
deriving Repr, DecidableEq

/-- Row of the compras table (the purchase ledger). -/
structure Compra where
  id : Int
  clienteId : Int
  valorTotal : Money
  itensComprados : List ItemComprado
deriving Repr, DecidableEq

/-- The database state: the four tables of the schema, plus the SERIAL
counter that assigns compra ids. -/
structure DB where
  clientes : List Cliente
  produtos : List Produto
  carrinhos : List CarrinhoItem
  compras : List Compra
  nextCompraId : Int
deriving Repr, DecidableEq

/-- Errors thrown inside the transaction callback.  `emptyCart` is the
explicit business-rule throw of the route; `produtoAusente` is the fault
of a cart line whose product is missing from produtos (impossible under
the schema foreign key, surfaced as a thrown error); `persistencia` is an
infrastructure failure of the underlying store during the unit of work. -/
inductive TxError where
  | emptyCart
  | produtoAusente
  | persistencia (msg : String)
deriving Repr, DecidableEq

/-- The message carried by the thrown error (`error.message` in the catch). -/
def TxError.message : TxError → String
  | .emptyCart => "O carrinho esta vazio. Nenhuma compra foi realizada."
  | .produtoAusente => "Produto do carrinho ausente do catalogo."
  | .persistencia m => m

/-- Lookup in the produtos table by id (the relation followed by
`include produto`). -/
def findProduto (db : DB) (pid : Int) : Option Produto :=
  db.produtos.find? (fun p => p.id == pid)

/-- `tx.carrinhoItem.findMany` with a clienteId filter: every cart line of
the shopper, in table order. -/
def lerItensCarrinho (db : DB) (clienteId : Int) : List CarrinhoItem :=
  db.carrinhos.filter (fun i => i.clienteId == clienteId)

/-- The join performed by `include produto`: each cart line paired with
its product row; `none` when some product id is absent from produtos. -/
def joinProdutos (db : DB) (itens : List CarrinhoItem) :
    Option (List (CarrinhoItem × Produto)) :=
  itens.mapM (fun i => (findProduto db i.produtoId).map (fun p => (i, p)))

/-- The route body of step 2: a single pass over the joined lines that
accumulates `valorTotal` (starting from the given accumulator) and builds
the `itensComprados` snapshot list, in iteration order, exactly as the
`map` with the mutated `valorTotal` does. -/
def processarItens : List (CarrinhoItem × Produto) → Money → Money × List ItemComprado
  | [], acc => (acc, [])
  | (item, produto) :: rest, acc =>
      let subtotal := produto.preco.times item.quantidade
      let r := processarItens rest (acc.plus subtotal)
      (r.1, ⟨produto.id, produto.nome, produto.preco, item.quantidade⟩ :: r.2)

/-- The transaction callback of POST /simulacao/sair: read the cart lines
joined with products, throw on an empty cart, accumulate the total and the
snapshot, create the compra row, delete the cart rows.  On any thrown
error the prisma transaction rolls back, so an error result carries no
state: the database is unchanged.  `fault` injects an infrastructure
failure of the persistence layer into the unit of work. -/
def finalizePurchase (db : DB) (clienteId : Int) (fault : Option String) :
    Except TxError (Compra × DB) :=
  match fault with
  | some m => .error (.persistencia m)
  | none =>
    let itensCarrinho := lerItensCarrinho db clienteId
    if itensCarrinho.length == 0 then
      .error .emptyCart
    else
      match joinProdutos db itensCarrinho with
      | none => .error .produtoAusente
      | some joined =>
        let r := processarItens joined ⟨0⟩
        let novaCompra : Compra := ⟨db.nextCompraId, clienteId, r.1, r.2⟩
        .ok (novaCompra,
          { db with
            compras := db.compras ++ [novaCompra]
            carrinhos := db.carrinhos.filter (fun i => !(i.clienteId == clienteId))
            nextCompraId := db.nextCompraId + 1 })

/-- Body of an HTTP response of the route: the created compra serialized,
or the object with the single `error` message field built by the catch. -/
inductive ResponseBody where
  | compraJson (c : Compra)
  | errorJson (msg : String)
deriving Repr, DecidableEq

/-- An HTTP response: status code and JSON body. -/
structure Response where
  status : Nat
  body : ResponseBody
deriving Repr, DecidableEq

/-- The whole POST /simulacao/sair handler: run the transaction; on
success respond 201 with the compra, on any thrown error respond 400 with
the error message (the single catch of the route).  Returns the response
together with the database state after the request. -/
def postSimulacaoSair (db : DB) (clienteId : Int) (fault : Option String) :
    Response × DB :=
  match finalizePurchase db clienteId fault with
  | .ok (compra, db1) => (⟨201, .compraJson compra⟩, db1)
  | .error e => (⟨400, .errorJson e.message⟩, db)

/-- The Cart Store read of the specification: `readLines(shopperId)`,
the (productId, quantity) pairs of the shopper. -/
def readLines (db : DB) (clienteId : Int) : List (Int × Nat) :=
  (lerItensCarrinho db clienteId).map (fun i => (i.produtoId, i.quantidade))

/-- A catalog price edit: an UPDATE of produtos.preco for one product id.
Per the schema this touches only the produtos table; every other table,
compras in particular, is a distinct relation and is left as is. -/
def updatePreco (db : DB) (produtoId : Int) (novoPreco : Money) : DB :=
  { db with
    produtos := db.produtos.map
      (fun p => if p.id == produtoId then { p with preco := novoPreco } else p) }

/-- Sum of preco times quantidade over the joined cart lines, in cents. -/
def subtotalSum (joined : List (CarrinhoItem × Produto)) : Int :=
  (joined.map (fun ip => ip.2.preco.cents * (ip.1.quantidade : Int))).sum

/-- Sum of preco times quantidade over snapshot lines, in cents. -/
def snapshotSum (items : List ItemComprado) : Int :=
  (items.map (fun it => it.preco.cents * (it.quantidade : Int))).sum

/-- The exact decimal sum of unitPrice times quantity over snapshot lines,
as a Money fold. -/
def snapshotTotal (items : List ItemComprado) : Money :=
  items.foldl (fun acc it => acc.plus (it.preco.times it.quantidade)) ⟨0⟩

/-- The snapshot object built from one joined cart line. -/
def toItem (ip : CarrinhoItem × Produto) : ItemComprado :=
  ⟨ip.2.id, ip.2.nome, ip.2.preco, ip.1.quantidade⟩

/-! ## Concrete scenario data (seed products of the repository) -/

/-- Product A of the scenario: Camisa de Seda, price 799.90. -/
def produtoA : Produto := ⟨1, "Camisa de Seda", ⟨79990⟩⟩

/-- Product B of the scenario: Calca Jeans, price 499.90. -/
def produtoB : Produto := ⟨2, "Calca Jeans", ⟨49990⟩⟩

/-- Scenario database: one shopper, two products, cart with product A
quantity 1 and product B quantity 2, empty ledger. -/
def dbEx : DB :=
  ⟨[⟨1, "Moises", "credito_final_4242"⟩], [produtoA, produtoB],
   [⟨1, 1, 1⟩, ⟨1, 2, 2⟩], [], 1⟩

/-- The purchase the scenario cart produces: total 1799.70, both lines
snapshotted at their read prices. -/
def cEx : Compra :=
  ⟨1, 1, ⟨179970⟩,
   [⟨1, "Camisa de Seda", ⟨79990⟩, 1⟩, ⟨2, "Calca Jeans", ⟨49990⟩, 2⟩]⟩

/-- The scenario database after the successful checkout: ledger holds the
purchase, the cart is empty. -/
def dbExAfter : DB :=
  ⟨[⟨1, "Moises", "credito_final_4242"⟩], [produtoA, produtoB],
   [], [cEx], 2⟩

/-- Scenario database with an existing shopper whose cart is empty. -/
def dbEmpty : DB :=
  ⟨[⟨1, "Moises", "credito_final_4242"⟩], [produtoA, produtoB], [], [], 1⟩

/-! ## Helper lemmas about the transaction body -/

/-- The single accumulating pass equals the cents sum plus the snapshot map. -/
theorem processarItens_eq (l : List (CarrinhoItem × Produto)) (acc : Money) :
    processarItens l acc = (⟨acc.cents + subtotalSum l⟩, l.map toItem) := by
  induction l generalizing acc with
  | nil => simp [processarItens, subtotalSum]
  | cons ip rest ih =>
      obtain ⟨item, produto⟩ := ip
      simp only [processarItens, ih, subtotalSum, List.map_cons, List.sum_cons,
        Money.plus, Money.times, toItem, Prod.mk.injEq, Money.mk.injEq]
      refine ⟨by ring, trivial⟩

/-- Folding plus of subtotals over snapshot lines equals the cents sum. -/
theorem snapshotFold_eq (items : List ItemComprado) (acc : Money) :
    items.foldl (fun a it => a.plus (it.preco.times it.quantidade)) acc
      = ⟨acc.cents + snapshotSum items⟩ := by
  induction items generalizing acc with
  | nil => simp [snapshotSum]
  | cons it rest ih =>
      rw [List.foldl_cons, ih]
      simp only [snapshotSum, List.map_cons, List.sum_cons, Money.plus,
        Money.times, Money.mk.injEq]
      ring

/-- snapshotTotal in cents. -/
theorem snapshotTotal_eq (items : List ItemComprado) :
    snapshotTotal items = ⟨snapshotSum items⟩ := by
  simp [snapshotTotal, snapshotFold_eq]

/-- The snapshot of the joined lines sums to the same cents as the lines. -/
theorem snapshotSum_map_toItem (l : List (CarrinhoItem × Produto)) :
    snapshotSum (l.map toItem) = subtotalSum l := by
  simp [snapshotSum, subtotalSum, List.map_map]
  rfl

/-- Inversion of a successful transaction: the cart was non-empty, the
join succeeded, and the created compra and the new state have the shape
written in the route. -/
theorem finalize_ok_inv (db : DB) (cid : Int) (fault : Option String)
    (c : Compra) (db' : DB)
    (h : finalizePurchase db cid fault = .ok (c, db')) :
    ∃ joined, joinProdutos db (lerItensCarrinho db cid) = some joined ∧
      c = ⟨db.nextCompraId, cid, ⟨subtotalSum joined⟩, joined.map toItem⟩ ∧
      db' = { db with
        compras := db.compras ++ [c]
        carrinhos := db.carrinhos.filter (fun i => !(i.clienteId == cid))
        nextCompraId := db.nextCompraId + 1 } := by
  cases fault with
  | some m => simp [finalizePurchase] at h
  | none =>
    unfold finalizePurchase at h
    simp only [] at h
    split at h
    · simp at h
    · cases hj : joinProdutos db (lerItensCarrinho db cid) with
      | none => rw [hj] at h; simp at h
      | some joined =>
          rw [hj] at h
          simp only [processarItens_eq, Except.ok.injEq, Prod.mk.injEq] at h
          obtain ⟨h1, h2⟩ := h
          refine ⟨joined, rfl, ?_, ?_⟩
          · rw [← h1, zero_add]
          · rw [← h2, ← h1]

/-- Filtering for a shopper after removing that shopper leaves nothing. -/
theorem filter_after_delete (l : List CarrinhoItem) (cid : Int) :
    (l.filter (fun i => !(i.clienteId == cid))).filter
      (fun i => i.clienteId == cid) = [] := by
  induction l with
  | nil => rfl
  | cons i rest ih =>
      by_cases hc : (i.clienteId == cid) = true
      · simp [List.filter_cons, hc, ih]
      · simp only [Bool.not_eq_true] at hc
        simp [List.filter_cons, hc, ih]

/-! ## Claims -/

/-- C1: for every cart on which finalizePurchase succeeds, the returned
Purchase has a total equal to the exact decimal sum of unitPrice times
quantity over its snapshot lines. -/
theorem C1_total_equals_snapshot_sum (db : DB) (cid : Int) (c : Compra)
    (db' : DB) (h : finalizePurchase db cid none = .ok (c, db')) :
    c.valorTotal = snapshotTotal c.itensComprados := by
  obtain ⟨joined, hj, hc, hdb⟩ := finalize_ok_inv db cid none c db' h
  subst hc
  simp [snapshotTotal_eq, snapshotSum_map_toItem]

/-- C1 witness: the scenario cart (product A 799.90 qty 1, product B
499.90 qty 2) yields a purchase satisfying the claim whose total is
exactly 1799.70. -/
theorem C1_total_equals_snapshot_sum_witness :
    cEx.valorTotal = snapshotTotal cEx.itensComprados ∧
    cEx.valorTotal = ⟨179970⟩ :=
  ⟨C1_total_equals_snapshot_sum dbEx 1 cEx dbExAfter rfl, rfl⟩

/-- C2: an empty cart at read time makes finalizePurchase fail with the
empty-cart error, and the request leaves the database (cart store and
purchase ledger alike) unchanged. -/
theorem C2_empty_cart_fails_unchanged (db : DB) (cid : Int)
    (h : lerItensCarrinho db cid = []) :
    finalizePurchase db cid none = .error .emptyCart ∧
    postSimulacaoSair db cid none
      = (⟨400, .errorJson TxError.emptyCart.message⟩, db) := by
  have h1 : finalizePurchase db cid none = .error .emptyCart := by
    unfold finalizePurchase
    simp [h]
  refine ⟨h1, ?_⟩
  unfold postSimulacaoSair
  rw [h1]

/-- C2 witness: the shopper with an empty cart. -/
theorem C2_empty_cart_fails_unchanged_witness :
    finalizePurchase dbEmpty 1 none = .error .emptyCart ∧
    postSimulacaoSair dbEmpty 1 none
      = (⟨400, .errorJson TxError.emptyCart.message⟩, dbEmpty) :=
  C2_empty_cart_fails_unchanged dbEmpty 1 rfl

/-- C3: atomicity of the transaction. On success exactly one new compra
row is appended and exactly the rows of the shopper present at read time
are removed, the other tables untouched; on any failure the request
leaves the database unchanged, so a later read of the cart sees the state
from before the failed attempt. -/
theorem C3_transaction_atomic (db : DB) (cid : Int) (fault : Option String) :
    (∀ c db', finalizePurchase db cid fault = .ok (c, db') →
        db'.compras = db.compras ++ [c] ∧
        db'.carrinhos = db.carrinhos.filter (fun i => !(i.clienteId == cid)) ∧
        db'.clientes = db.clientes ∧
        db'.produtos = db.produtos) ∧
    (∀ e, finalizePurchase db cid fault = .error e →
        (postSimulacaoSair db cid fault).2 = db ∧
        readLines (postSimulacaoSair db cid fault).2 cid = readLines db cid) := by
  constructor
  · intro c db' h
    obtain ⟨joined, hj, hc, hdb⟩ := finalize_ok_inv db cid fault c db' h
    subst hdb
    exact ⟨rfl, rfl, rfl, rfl⟩
  · intro e h
    unfold postSimulacaoSair
    rw [h]
    exact ⟨rfl, rfl⟩

/-- C3 witness: the success half at the scenario database, and the
failure half under an injected persistence fault. -/
theorem C3_transaction_atomic_witness :
    (dbExAfter.compras = dbEx.compras ++ [cEx] ∧
     dbExAfter.carrinhos = dbEx.carrinhos.filter (fun i => !(i.clienteId == 1)) ∧
     dbExAfter.clientes = dbEx.clientes ∧
     dbExAfter.produtos = dbEx.produtos) ∧
    ((postSimulacaoSair dbEx 1 (some "falha de conexao")).2 = dbEx ∧
     readLines (postSimulacaoSair dbEx 1 (some "falha de conexao")).2 1
       = readLines dbEx 1) :=
  ⟨(C3_transaction_atomic dbEx 1 none).1 cEx dbExAfter rfl,
   (C3_transaction_atomic dbEx 1 (some "falha de conexao")).2
     (.persistencia "falha de conexao") rfl⟩

/-- C4: after a successful finalizePurchase, reading the cart lines of the
shopper returns the empty sequence. -/
theorem C4_cart_cleared (db : DB) (cid : Int) (fault : Option String)
    (c : Compra) (db' : DB)
    (h : finalizePurchase db cid fault = .ok (c, db')) :
    readLines db' cid = [] := by
  obtain ⟨joined, hj, hc, hdb⟩ := finalize_ok_inv db cid fault c db' h
  subst hdb
  simp only [readLines, lerItensCarrinho, filter_after_delete, List.map_nil]

/-- C4 witness: the scenario checkout leaves an empty cart. -/
theorem C4_cart_cleared_witness : readLines dbExAfter 1 = [] :=
  C4_cart_cleared dbEx 1 none cEx dbExAfter rfl

/-- C5: a purchase record is a snapshot decoupled from the catalog: a
later UPDATE of a product price leaves the compras table, and so every
recorded purchase with its stored line snapshots and total, unchanged. -/
theorem C5_purchase_immutable_under_price_change (db : DB) (pid : Int)
    (novo : Money) (compra : Compra) (h : compra ∈ db.compras) :
    (updatePreco db pid novo).compras = db.compras ∧
    compra ∈ (updatePreco db pid novo).compras :=
  ⟨rfl, h⟩

/-- C5 witness: after the scenario purchase, raising product A from
799.90 to 899.90 leaves the recorded purchase in the ledger, its
snapshot still reading 799.90 for product A and its total 1799.70. -/
theorem C5_purchase_immutable_under_price_change_witness :
    ((updatePreco dbExAfter 1 ⟨89990⟩).compras = dbExAfter.compras ∧
     cEx ∈ (updatePreco dbExAfter 1 ⟨89990⟩).compras) ∧
    cEx.itensComprados.map (fun it => it.preco) = [⟨79990⟩, ⟨49990⟩] ∧
    cEx.valorTotal = ⟨179970⟩ :=
  ⟨C5_purchase_immutable_under_price_change dbExAfter 1 ⟨89990⟩ cEx
     (by simp [dbExAfter]), rfl, rfl⟩

/-- C6 counterexample: a persistence fault inside the unit of work is
answered with status 400 — the same client-error status as a business
rejection — and a body holding only the raw message string, with no
machine-readable kind; the claimed server-error status for internal
faults does not exist in the route, whose single catch always sends 400. -/
theorem C6_counterexample_internal_fault_gets_400 :
    (postSimulacaoSair dbEx 1 (some "falha de conexao com o banco")).1
      = ⟨400, .errorJson "falha de conexao com o banco"⟩ ∧
    400 < 500 :=
  ⟨rfl, by norm_num⟩

/-- C6 amended: every failure of finalizePurchase, business or internal,
is answered with the client-error status 400 and a body carrying only the
error message string; no machine-readable kind and no server-error status
is ever produced, and the database is left unchanged. -/
theorem C6_amended_every_failure_is_400 (db : DB) (cid : Int)
    (fault : Option String) (e : TxError)
    (h : finalizePurchase db cid fault = .error e) :
    postSimulacaoSair db cid fault = (⟨400, .errorJson e.message⟩, db) := by
  unfold postSimulacaoSair
  rw [h]

/-- C6 amended witness: the injected infrastructure fault at the scenario
database. -/
theorem C6_amended_every_failure_is_400_witness :
    postSimulacaoSair dbEx 1 (some "banco indisponivel")
      = (⟨400, .errorJson (TxError.persistencia "banco indisponivel").message⟩,
         dbEx) :=
  C6_amended_every_failure_is_400 dbEx 1 (some "banco indisponivel")
    (.persistencia "banco indisponivel") rfl

/-- C7: the Money operations of the route are exact with respect to the
rational value they denote: addition and multiplication by an integer
quantity commute with the denotation, and the fold of subtotals over any
snapshot line list denotes exactly the rational sum of unitPrice times
quantity — no floating-point rounding exists in the type. -/
theorem C7_money_arithmetic_exact (a b : Money) (n : Nat)
    (items : List ItemComprado) :
    (a.plus b).toRat = a.toRat + b.toRat ∧
    (a.times n).toRat = a.toRat * (n : ℚ) ∧
    (snapshotTotal items).toRat
      = (items.map (fun it => it.preco.toRat * (it.quantidade : ℚ))).sum := by
  refine ⟨?_, ?_, ?_⟩
  · simp only [Money.plus, Money.toRat]
    push_cast
    ring
  · simp only [Money.times, Money.toRat]
    push_cast
    ring
  · rw [snapshotTotal_eq]
    show ((snapshotSum items : ℚ)) / 100 = _
    induction items with
    | nil => simp [snapshotSum]
    | cons it rest ih =>
        have hs : snapshotSum (it :: rest)
            = it.preco.cents * (it.quantidade : Int) + snapshotSum rest := by
          simp [snapshotSum]
        rw [List.map_cons, List.sum_cons, hs, ← ih, Money.toRat]
        push_cast
        ring

/-- C8: the accumulated grand total over the joined cart lines is
computed in iteration order yet is invariant under any permutation of the
lines, and it equals the sum of every line subtotal, so every line is
accounted for. -/
theorem C8_total_permutation_invariant (l1 l2 : List (CarrinhoItem × Produto))
    (h : l1.Perm l2) :
    (processarItens l1 ⟨0⟩).1 = (processarItens l2 ⟨0⟩).1 ∧
    (processarItens l1 ⟨0⟩).1 = ⟨subtotalSum l1⟩ := by
  have hs : subtotalSum l1 = subtotalSum l2 := by
    unfold subtotalSum
    exact List.Perm.sum_eq (h.map _)
  rw [processarItens_eq, processarItens_eq, hs]
  exact ⟨rfl, by rw [← hs, zero_add]⟩

/-- C8 witness: swapping the two scenario cart lines leaves the computed
total 1799.70. -/
theorem C8_total_permutation_invariant_witness :
    (processarItens [(⟨1, 1, 1⟩, produtoA), (⟨1, 2, 2⟩, produtoB)] ⟨0⟩).1
      = (processarItens [(⟨1, 2, 2⟩, produtoB), (⟨1, 1, 1⟩, produtoA)] ⟨0⟩).1 ∧
    (processarItens [(⟨1, 1, 1⟩, produtoA), (⟨1, 2, 2⟩, produtoB)] ⟨0⟩).1
      = ⟨subtotalSum [(⟨1, 1, 1⟩, produtoA), (⟨1, 2, 2⟩, produtoB)]⟩ :=
  C8_total_permutation_invariant
    [(⟨1, 1, 1⟩, produtoA), (⟨1, 2, 2⟩, produtoB)]
    [(⟨1, 2, 2⟩, produtoB), (⟨1, 1, 1⟩, produtoA)]
    (List.Perm.swap _ _ _)

/-- C10: the checkout route reads only the carrinhos table, so any
shopper id with no cart lines — in particular an id absent from the
clientes table — receives exactly the empty-cart rejection, status 400,
never a not-found response of its own. -/
theorem C10_unknown_shopper_gets_empty_cart_error (db : DB) (cid : Int)
    (h : lerItensCarrinho db cid = []) :
    postSimulacaoSair db cid none
      = (⟨400, .errorJson TxError.emptyCart.message⟩, db) ∧
    (postSimulacaoSair db cid none).1.status ≠ 404 := by
  have h1 : finalizePurchase db cid none = .error .emptyCart := by
    unfold finalizePurchase
    simp [h]
  have h2 : postSimulacaoSair db cid none
      = (⟨400, .errorJson TxError.emptyCart.message⟩, db) := by
    unfold postSimulacaoSair
    rw [h1]
  refine ⟨h2, ?_⟩
  rw [h2]
  norm_num

/-- C10 witness: shopper id 99 appears nowhere in dbEx, not even in the
clientes table, yet the response is the empty-cart 400, identical to what
an existing shopper with an empty cart receives. -/
theorem C10_unknown_shopper_gets_empty_cart_error_witness :
    (postSimulacaoSair dbEx 99 none
      = (⟨400, .errorJson TxError.emptyCart.message⟩, dbEx) ∧
     (postSimulacaoSair dbEx 99 none).1.status ≠ 404) :=
  C10_unknown_shopper_gets_empty_cart_error dbEx 99 rfl
